import Mathlib

/-!
Shallow embedding of the MCP example server (`src/index.ts`, with the
weather handler from `build/mcp_server.js`): the tool dispatch and
validation layer, its error taxonomy, and the tool handlers.

Modelling conventions:
* JavaScript runtime values carried in `arguments` are `JsonValue`;
  JS numbers are modelled as exact rationals (`Rat`), which agrees with
  IEEE double semantics on every concrete value exercised below.
* A thrown JS value is a `Fault`: either a typed `McpError` or any other
  throwable (`Fault.js`), carried as its description string.
* The filesystem is explicit state `Fs`; every state-touching function
  returns the (possibly unchanged) filesystem next to its result, so
  absence of side effects is a provable equation.
* `new Date().toISOString()` is an injected string `now`; the weather
  tool's outbound fetch and locale time formatting are injected
  capabilities, as the spec treats all I/O resources.
-/

namespace MCPServer

/-- JavaScript runtime values as carried in a tool call's `arguments`. -/
inductive JsonValue where
  | str : String → JsonValue
  | num : Rat → JsonValue
  | bool : Bool → JsonValue
  | null : JsonValue
  | obj : List (String × JsonValue) → JsonValue
  | arr : List JsonValue → JsonValue

/-- An untyped argument bag: a JS object, keyed property list. -/
abbrev JsonObj := List (String × JsonValue)

/-- Property access `args.k`: `none` models JS `undefined`. -/
def getField : JsonObj → String → Option JsonValue
  | [], _ => none
  | (k, v) :: rest, key => if k = key then some v else getField rest key

/-- The protocol's fixed error-kind enumeration (`ErrorCode` of the SDK),
restricted to the kinds this server uses. -/
inductive ErrorCode where
  | invalidParams
  | methodNotFound
  | internalError
deriving DecidableEq

/-- A typed protocol failure (`McpError`). -/
structure McpError where
  code : ErrorCode
  message : String
deriving DecidableEq

/-- Anything a handler can throw: a typed `McpError`, or any other JS
throwable (I/O exception etc.), carried as its description string. -/
inductive Fault where
  | mcp : McpError → Fault
  | js : String → Fault
deriving DecidableEq

/-- One content block of a successful tool result. -/
structure ContentBlock where
  type : String
  text : String
deriving DecidableEq

/-- A successful tool outcome: the `{ content: [...] }` object. -/
structure ToolResult where
  content : List ContentBlock
deriving DecidableEq

/-- A one-block text result, the shape every handler builds. -/
def textResult (s : String) : ToolResult := ⟨[⟨"text", s⟩]⟩

/-- A filesystem entry: a regular file with its text content, or a
directory with its entry names in underlying read order. -/
inductive FsEntry where
  | file : String → FsEntry
  | dir : List String → FsEntry
deriving DecidableEq

/-- The filesystem: a finite map from path to entry. -/
structure Fs where
  entries : List (String × FsEntry)
deriving DecidableEq

/-- Path lookup. -/
def Fs.lookup (fs : Fs) (p : String) : Option FsEntry :=
  match fs.entries.find? (fun e => e.1 = p) with
  | some e => some e.2
  | none => none

/-- Replace or add the entry at path `p`. -/
def Fs.set (fs : Fs) (p : String) (e : FsEntry) : Fs :=
  ⟨(p, e) :: fs.entries.filter (fun q => ¬ q.1 = p)⟩

/-- `fs.readFile(p, 'utf8')`: content of a regular file, else a thrown
Node error, carried as its message. -/
def Fs.readFile (fs : Fs) (p : String) : Except String String :=
  match fs.lookup p with
  | some (.file c) => .ok c
  | some (.dir _) => .error ("EISDIR: illegal operation on a directory, read " ++ p)
  | none => .error ("ENOENT: no such file or directory, open " ++ p)

/-- `fs.writeFile(p, c, 'utf8')`: overwrites the file entirely (creating
it if absent); fails on a directory target. -/
def Fs.writeFile (fs : Fs) (p : String) (c : String) : Except String Fs :=
  match fs.lookup p with
  | some (.dir _) => .error ("EISDIR: illegal operation on a directory, open " ++ p)
  | _ => .ok (fs.set p (.file c))

/-- `fs.stat(p)`: the entry, or a thrown ENOENT error. -/
def Fs.stat (fs : Fs) (p : String) : Except String FsEntry :=
  match fs.lookup p with
  | some e => .ok e
  | none => .error ("ENOENT: no such file or directory, stat " ++ p)

/-- Byte size reported by `stats.size` for a regular file written as UTF-8. -/
def FsEntry.size : FsEntry → Nat
  | .file c => c.utf8ByteSize
  | .dir _ => 0

/-- The body of `handleFileOperations`'s `try` block: the `switch` on
`args.operation`, after the operation/path presence check passed.
Returns the result or the thrown fault, next to the filesystem state. -/
def fileOpsBody (op p : String) (args : JsonObj) (fs : Fs) :
    Except Fault ToolResult × Fs :=
  match op with
  | "read" =>
    match fs.readFile p with
    | .ok content => (.ok (textResult ("File content of " ++ p ++ ":\n" ++ content)), fs)
    | .error m => (.error (.js m), fs)
  | "write" =>
    match getField args "content" with
    | some (.str c) =>
      match fs.writeFile p c with
      | .ok fs2 => (.ok (textResult ("Successfully wrote to " ++ p)), fs2)
      | .error m => (.error (.js m), fs)
    | _ => (.error (.mcp ⟨.invalidParams, "Content parameter is required for write operation"⟩), fs)
  | "list" =>
    match fs.stat p with
    | .ok st =>
      match st with
      | .dir files =>
        (.ok (textResult ("Directory contents of " ++ p ++ ":\n" ++ String.intercalate "\n" files)), fs)
      | .file _ =>
        (.ok (textResult (p ++ " is a file (size: " ++ toString st.size ++ " bytes)")), fs)
    | .error m => (.error (.js m), fs)
  | _ => (.error (.mcp ⟨.invalidParams, "Unknown file operation: " ++ op⟩), fs)

/-- `handleFileOperations`'s `catch` block: a non-`McpError` fault is
wrapped as `InternalError` with the fault's message embedded; an
`McpError` is rethrown unchanged. -/
def fileOpsCatch (r : Except Fault ToolResult × Fs) : Except Fault ToolResult × Fs :=
  match r with
  | (.error (.js m), fs) => (.error (.mcp ⟨.internalError, "File operation failed: " ++ m⟩), fs)
  | other => other

/-- `handleFileOperations(args)`: the `operation`/`path` typeof checks,
then the `try`/`catch` around the operation switch. -/
def handleFileOperations (args : JsonObj) (fs : Fs) : Except Fault ToolResult × Fs :=
  match getField args "operation", getField args "path" with
  | some (.str op), some (.str p) => fileOpsCatch (fileOpsBody op p args fs)
  | _, _ =>
    (.error (.mcp ⟨.invalidParams, "Both 'operation' and 'path' parameters are required"⟩), fs)

/-- JS number-to-string conversion, as used by template literals, for the
values this embedding carries: an integral value prints its integer digits. -/
def jsNumToString (q : Rat) : String :=
  if q.den = 1 then toString q.num else toString q

/-- The `switch (name)` body of the `CallToolRequestSchema` handler's
`try` block: one case per registered tool, `default` throwing
`MethodNotFound`. `now` injects `new Date().toISOString()`. -/
def dispatchSwitch (name : String) (args : JsonObj) (now : String) (fs : Fs) :
    Except Fault ToolResult × Fs :=
  match name with
  | "echo" =>
    match getField args "text" with
    | some (.str t) => (.ok (textResult ("Echo: " ++ t)), fs)
    | _ => (.error (.mcp ⟨.invalidParams, "Text parameter is required"⟩), fs)
  | "add_numbers" =>
    match getField args "a", getField args "b" with
    | some (.num a), some (.num b) =>
      (.ok (textResult (jsNumToString a ++ " + " ++ jsNumToString b ++ " = " ++
        jsNumToString (a + b))), fs)
    | _, _ => (.error (.mcp ⟨.invalidParams, "Both 'a' and 'b' parameters must be numbers"⟩), fs)
  | "multiply_numbers" =>
    match getField args "a", getField args "b" with
    | some (.num a), some (.num b) =>
      (.ok (textResult (jsNumToString a ++ " * " ++ jsNumToString b ++ " = " ++
        jsNumToString (a * b))), fs)
    | _, _ => (.error (.mcp ⟨.invalidParams, "Both 'a' and 'b' parameters must be numbers"⟩), fs)
  | "get_time" => (.ok (textResult ("Current time: " ++ now)), fs)
  | "file_operations" => handleFileOperations args fs
  | _ => (.error (.mcp ⟨.methodNotFound, "Unknown tool: " ++ name⟩), fs)

/-- The dispatcher's outer `catch` block: a non-`McpError` fault becomes
`InternalError` embedding the fault's message; an `McpError` is rethrown
verbatim. After it, every error reaching the client is an `McpError`. -/
def outerCatch (r : Except Fault ToolResult × Fs) : Except McpError ToolResult × Fs :=
  match r with
  | (.ok v, fs) => (.ok v, fs)
  | (.error (.mcp e), fs) => (.error e, fs)
  | (.error (.js m), fs) => (.error ⟨.internalError, "Tool execution failed: " ++ m⟩, fs)

/-- One decoded `call tool` request: the tool name and the raw argument
object (`none` models an absent/undefined `arguments`). -/
structure CallRequest where
  name : String
  arguments : Option JsonObj

/-- The full `CallToolRequestSchema` handler: the `!args` guard (before
any name resolution), then the dispatch switch under its `try`/`catch`. -/
def callTool (req : CallRequest) (now : String) (fs : Fs) :
    Except McpError ToolResult × Fs :=
  match req.arguments with
  | none => (.error ⟨.invalidParams, "Arguments are required"⟩, fs)
  | some args => outerCatch (dispatchSwitch req.name args now fs)

/-- The five tool names registered in the catalog of `src/index.ts`. -/
def registeredTools : List String :=
  ["echo", "add_numbers", "multiply_numbers", "get_time", "file_operations"]

/-- JS truthiness: `undefined` is handled at the `Option` layer. -/
def jsFalsy : JsonValue → Bool
  | .str s => s = ""
  | .num q => q = 0
  | .bool b => !b
  | .null => true
  | .obj _ => false
  | .arr _ => false

/-- JS value-to-string conversion inside a template literal, for the
value shapes this embedding carries. -/
def jsToString : JsonValue → String
  | .str s => s
  | .num q => jsNumToString q
  | .bool b => if b then "true" else "false"
  | .null => "null"
  | .obj _ => "[object Object]"
  | .arr vs => String.intercalate "," (vs.attach.map fun v => jsToString v.1)
decreasing_by
  have h := List.sizeOf_lt_of_mem v.2
  simp
  omega

/-- Whether a JS value is exactly the string `s` (the `===` comparison). -/
def JsonValue.isStr (v : JsonValue) (s : String) : Bool :=
  match v with
  | .str t => t = s
  | _ => false

/-- The fields of the OpenWeatherMap response body that
`handleWeatherAPI` reads (`build/mcp_server.js`). -/
structure WeatherData where
  message : Option String
  name : String
  country : String
  temp : Rat
  feelsLike : Rat
  weatherMain : String
  weatherDesc : String
  humidity : Rat
  windSpeed : Rat
  visibility : Rat
  sunrise : Rat
  sunset : Rat

/-- The setup-instruction text returned when no API key is configured. -/
def weatherSetupText : String :=
  "Weather API requires OPENWEATHER_API_KEY environment variable. " ++
  "You can get a free API key from https://openweathermap.org/api\n\n" ++
  "Example usage:\nOPENWEATHER_API_KEY=your_key_here npm start"

/-- The formatted multi-field weather summary of `handleWeatherAPI`.
`localeTime` injects `Date.toLocaleTimeString`. -/
def weatherSummary (data : WeatherData) (units : JsonValue)
    (localeTime : Rat → String) : String :=
  let unitSymbol := if units.isStr "metric" then "°C"
    else if units.isStr "imperial" then "°F" else "K"
  "Weather in " ++ data.name ++ ", " ++ data.country ++ ":\n" ++
  "🌡️ Temperature: " ++ jsNumToString data.temp ++ unitSymbol ++
    " (feels like " ++ jsNumToString data.feelsLike ++ unitSymbol ++ ")\n" ++
  "🌤️ Condition: " ++ data.weatherMain ++ " - " ++ data.weatherDesc ++ "\n" ++
  "💧 Humidity: " ++ jsNumToString data.humidity ++ "%\n" ++
  "🌬️ Wind: " ++ jsNumToString data.windSpeed ++ " " ++
    (if units.isStr "metric" then "m/s" else "mph") ++ "\n" ++
  "👁️ Visibility: " ++ jsNumToString (data.visibility / 1000) ++ " km\n" ++
  "🌅 Sunrise: " ++ localeTime (data.sunrise * 1000) ++ "\n" ++
  "🌇 Sunset: " ++ localeTime (data.sunset * 1000)

/-- `handleWeatherAPI(args)` from `build/mcp_server.js`. `apiKey` injects
`process.env.OPENWEATHER_API_KEY` (`none` = unset); `fetchWeather`
injects the outbound `fetch` + `json()` step (`Except.error` = a thrown
network/parse error, `.ok (respOk, data)` = a decoded response);
`localeTime` injects locale time formatting. The `catch` wraps any fault
of the `try` body as `InternalError`; the city check precedes the `try`.
`encodeURIComponent` is modelled as the identity: the URL is opaque to
the injected fetch capability. -/
def handleWeatherAPI (args : JsonObj) (apiKey : Option String)
    (fetchWeather : String → Except String (Bool × WeatherData))
    (localeTime : Rat → String) : Except Fault ToolResult :=
  match getField args "city" with
  | some (.str city) =>
    let units : JsonValue :=
      match getField args "units" with
      | some u => if jsFalsy u then .str "metric" else u
      | none => .str "metric"
    match apiKey with
    | none => .ok (textResult weatherSetupText)
    | some key =>
      if key = "" then .ok (textResult weatherSetupText)
      else
        let url := "https://api.openweathermap.org/data/2.5/weather?q=" ++
          city ++ "&appid=" ++ key ++ "&units=" ++ jsToString units
        match fetchWeather url with
        | .error m =>
          .error (.mcp ⟨.internalError, "Weather API request failed: " ++ m⟩)
        | .ok (respOk, data) =>
          if respOk then
            .ok (textResult (weatherSummary data units localeTime))
          else
            .error (.mcp ⟨.internalError, "Weather API request failed: " ++
              "Weather API error: " ++
              (match data.message with
               | some m => if m = "" then "Unknown error" else m
               | none => "Unknown error")⟩)
  | _ => .error (.mcp ⟨.invalidParams, "City parameter is required"⟩)

/-! ## Theorems -/

/-- C9: an invocation whose request carries no arguments object at all is
answered with an `InvalidParams` failure whose message is exactly
"Arguments are required", before the tool name is resolved: the equation
holds for every tool name, registered or not (so no `MethodNotFound` is
produced), including `get_time`, and the filesystem is untouched. -/
theorem callTool_no_arguments (name now : String) (fs : Fs) :
    callTool ⟨name, none⟩ now fs = (.error ⟨.invalidParams, "Arguments are required"⟩, fs) := rfl

/-- C2: an invocation accompanied by an arguments object but naming an
unregistered tool is answered with a `MethodNotFound` failure naming the
tool, for every argument object, and the filesystem is returned unchanged
(no handler side effect occurs). -/
theorem callTool_unknown_tool (name now : String) (args : JsonObj) (fs : Fs)
    (h : name ∉ registeredTools) :
    callTool ⟨name, some args⟩ now fs =
      (.error ⟨.methodNotFound, "Unknown tool: " ++ name⟩, fs) := by
  simp only [registeredTools, List.mem_cons, List.not_mem_nil, or_false, not_or] at h
  obtain ⟨h1, h2, h3, h4, h5⟩ := h
  unfold callTool outerCatch dispatchSwitch
  split <;> simp_all

/-- Witness for C2 at the concrete unregistered name "bogus". -/
theorem callTool_unknown_tool_witness :
    "bogus" ∉ registeredTools ∧
    callTool ⟨"bogus", some []⟩ "T" ⟨[]⟩ =
      (.error ⟨.methodNotFound, "Unknown tool: bogus"⟩, ⟨[]⟩) :=
  ⟨by decide, callTool_unknown_tool "bogus" "T" [] ⟨[]⟩ (by decide)⟩

/-- C1: the dispatcher's fault handling. A fault of the dispatch switch
that is not a typed `McpError` is caught and returned as an
`InternalError` whose message embeds the fault's description; a typed
`McpError` is propagated verbatim, never re-wrapped; concretely, a read
of a missing path surfaces as `InternalError` embedding the ENOENT
description (wrapped by the inner catch), while the `InvalidParams` a
write-without-content raises passes through both catch layers unchanged.
`callTool`'s codomain `Except McpError` records that no non-`McpError`
fault ever escapes. -/
theorem callTool_fault_normalization (name p now : String) (args : JsonObj) (fs : Fs) :
    (∀ m fs2, dispatchSwitch name args now fs = (.error (.js m), fs2) →
      callTool ⟨name, some args⟩ now fs =
        (.error ⟨.internalError, "Tool execution failed: " ++ m⟩, fs2)) ∧
    (∀ e fs2, dispatchSwitch name args now fs = (.error (.mcp e), fs2) →
      callTool ⟨name, some args⟩ now fs = (.error e, fs2)) ∧
    (fs.lookup p = none →
      callTool ⟨"file_operations",
          some [("operation", .str "read"), ("path", .str p)]⟩ now fs =
        (.error ⟨.internalError, "File operation failed: " ++
          ("ENOENT: no such file or directory, open " ++ p)⟩, fs)) ∧
    (callTool ⟨"file_operations",
        some [("operation", .str "write"), ("path", .str p)]⟩ now fs =
      (.error ⟨.invalidParams, "Content parameter is required for write operation"⟩, fs)) := by
  refine ⟨fun m fs2 h => ?_, fun e fs2 h => ?_, fun h => ?_, ?_⟩
  · show outerCatch _ = _
    rw [h]; rfl
  · show outerCatch _ = _
    rw [h]; rfl
  · simp [callTool, outerCatch, dispatchSwitch, handleFileOperations, getField,
      fileOpsCatch, fileOpsBody, Fs.readFile, h]
  · simp [callTool, outerCatch, dispatchSwitch, handleFileOperations, getField,
      fileOpsCatch, fileOpsBody]

/-- C3: a required field supplied with the wrong runtime primitive kind
(or absent) is rejected with `InvalidParams` before any arithmetic or
I/O executes — the filesystem comes back unchanged — and no coercion is
performed: in particular `add_numbers` with the numeric string "2" for
`a` is rejected, not converted. -/
theorem callTool_wrong_kind_invalid_params (now : String) (args : JsonObj) (fs : Fs) :
    ((∀ q, getField args "a" ≠ some (.num q)) →
      callTool ⟨"add_numbers", some args⟩ now fs =
        (.error ⟨.invalidParams, "Both 'a' and 'b' parameters must be numbers"⟩, fs)) ∧
    ((∀ q, getField args "b" ≠ some (.num q)) →
      callTool ⟨"add_numbers", some args⟩ now fs =
        (.error ⟨.invalidParams, "Both 'a' and 'b' parameters must be numbers"⟩, fs)) ∧
    ((∀ s, getField args "text" ≠ some (.str s)) →
      callTool ⟨"echo", some args⟩ now fs =
        (.error ⟨.invalidParams, "Text parameter is required"⟩, fs)) ∧
    (callTool ⟨"add_numbers", some [("a", .str "2"), ("b", .num 3)]⟩ now fs =
      (.error ⟨.invalidParams, "Both 'a' and 'b' parameters must be numbers"⟩, fs)) := by
  refine ⟨fun ha => ?_, fun hb => ?_, fun ht => ?_, ?_⟩
  · rcases hA : getField args "a" with _ | v
    · simp [callTool, dispatchSwitch, outerCatch, hA]
    · cases v <;> simp_all [callTool, dispatchSwitch, outerCatch]
  · rcases hB : getField args "b" with _ | v
    · rcases hA : getField args "a" with _ | w <;>
        [skip; cases w] <;> simp_all [callTool, dispatchSwitch, outerCatch]
    · rcases hA : getField args "a" with _ | w <;>
        [skip; cases w] <;> cases v <;> simp_all [callTool, dispatchSwitch, outerCatch]
  · rcases hT : getField args "text" with _ | v
    · simp [callTool, dispatchSwitch, outerCatch, hT]
    · cases v <;> simp_all [callTool, dispatchSwitch, outerCatch]
  · simp [callTool, dispatchSwitch, outerCatch, getField]

/-- C4: a `file_operations` invocation missing a required field is
rejected with `InvalidParams` naming the missing field: absent
`operation` or absent `path` yields the message naming both, and
`operation = "write"` without `content` yields the message naming
`content`; the filesystem is untouched in every case. -/
theorem fileOps_missing_required_field (now : String) (args : JsonObj) (fs : Fs) :
    (getField args "operation" = none →
      callTool ⟨"file_operations", some args⟩ now fs =
        (.error ⟨.invalidParams, "Both 'operation' and 'path' parameters are required"⟩, fs)) ∧
    (getField args "path" = none →
      callTool ⟨"file_operations", some args⟩ now fs =
        (.error ⟨.invalidParams, "Both 'operation' and 'path' parameters are required"⟩, fs)) ∧
    (∀ p, getField args "operation" = some (.str "write") →
      getField args "path" = some (.str p) →
      getField args "content" = none →
      callTool ⟨"file_operations", some args⟩ now fs =
        (.error ⟨.invalidParams, "Content parameter is required for write operation"⟩, fs)) := by
  refine ⟨fun h => ?_, fun h => ?_, fun p hop hp hc => ?_⟩
  · simp [callTool, dispatchSwitch, outerCatch, handleFileOperations, h]
  · rcases hop : getField args "operation" with _ | v <;>
      [skip; cases v] <;>
      simp_all [callTool, dispatchSwitch, outerCatch, handleFileOperations]
  · simp [callTool, dispatchSwitch, outerCatch, handleFileOperations, hop, hp,
      fileOpsCatch, fileOpsBody, hc]

/-- C6: `file_operations(list, path)` on an existing regular file is a
success reporting the file's byte size, never a failure; on a directory
it is a success listing the newline-joined entry names in underlying
order. -/
theorem fileOps_list_file_and_dir (p now : String) (fs : Fs) :
    (∀ c, fs.lookup p = some (.file c) →
      callTool ⟨"file_operations",
          some [("operation", .str "list"), ("path", .str p)]⟩ now fs =
        (.ok (textResult (p ++ " is a file (size: " ++ toString c.utf8ByteSize ++
          " bytes)")), fs)) ∧
    (∀ names, fs.lookup p = some (.dir names) →
      callTool ⟨"file_operations",
          some [("operation", .str "list"), ("path", .str p)]⟩ now fs =
        (.ok (textResult ("Directory contents of " ++ p ++ ":\n" ++
          String.intercalate "\n" names)), fs)) := by
  constructor
  · intro c h
    simp [callTool, dispatchSwitch, outerCatch, handleFileOperations, getField,
      fileOpsCatch, fileOpsBody, Fs.stat, h, FsEntry.size]
  · intro names h
    simp [callTool, dispatchSwitch, outerCatch, handleFileOperations, getField,
      fileOpsCatch, fileOpsBody, Fs.stat, h]

/-- C8: for all numeric arguments a and b, `add_numbers` reports exactly
the computed sum in the text "{a} + {b} = {a+b}" and `multiply_numbers`
exactly the computed product, each formatted by the same conversion that
formatted the operands — the reported result is the arithmetic result,
never reformatted or approximated. -/
theorem arith_result_text (a b : Rat) (now : String) (args : JsonObj) (fs : Fs)
    (ha : getField args "a" = some (.num a)) (hb : getField args "b" = some (.num b)) :
    callTool ⟨"add_numbers", some args⟩ now fs =
      (.ok (textResult (jsNumToString a ++ " + " ++ jsNumToString b ++ " = " ++
        jsNumToString (a + b))), fs) ∧
    callTool ⟨"multiply_numbers", some args⟩ now fs =
      (.ok (textResult (jsNumToString a ++ " * " ++ jsNumToString b ++ " = " ++
        jsNumToString (a * b))), fs) := by
  constructor <;> simp [callTool, dispatchSwitch, outerCatch, ha, hb]

/-- Witness for C8: `add_numbers(a=2, b=3)` yields "2 + 3 = 5" and
`multiply_numbers(a=2, b=3)` yields "2 * 3 = 6". -/
theorem arith_result_text_witness :
    callTool ⟨"add_numbers", some [("a", .num 2), ("b", .num 3)]⟩ "T" ⟨[]⟩ =
      (.ok (textResult "2 + 3 = 5"), ⟨[]⟩) ∧
    callTool ⟨"multiply_numbers", some [("a", .num 2), ("b", .num 3)]⟩ "T" ⟨[]⟩ =
      (.ok (textResult "2 * 3 = 6"), ⟨[]⟩) := by
  have h := arith_result_text 2 3 "T" [("a", .num 2), ("b", .num 3)] ⟨[]⟩ rfl rfl
  have e1 : jsNumToString 2 ++ " + " ++ jsNumToString 3 ++ " = " ++
      jsNumToString (2 + 3) = "2 + 3 = 5" := by
    norm_num [jsNumToString]; rfl
  have e2 : jsNumToString 2 ++ " * " ++ jsNumToString 3 ++ " = " ++
      jsNumToString (2 * 3) = "2 * 3 = 6" := by
    norm_num [jsNumToString]; rfl
  rw [e1, e2] at h
  exact h

/-- Writing an entry and looking the same path up yields that entry. -/
theorem Fs.lookup_set (fs : Fs) (p : String) (e : FsEntry) :
    (fs.set p e).lookup p = some e := by
  simp [Fs.lookup, Fs.set]

/-- C5: round trip. A successful `file_operations(write, path=P,
content=C)` followed by `file_operations(read, path=P)` on the resulting
filesystem succeeds with text embedding exactly C, unmodified, after the
"File content of P:" header. -/
theorem fileOps_write_read_roundtrip (p c now now2 : String) (fs fs2 : Fs) (r : ToolResult)
    (h : callTool ⟨"file_operations", some [("operation", .str "write"), ("path", .str p),
        ("content", .str c)]⟩ now fs = (.ok r, fs2)) :
    (callTool ⟨"file_operations",
        some [("operation", .str "read"), ("path", .str p)]⟩ now2 fs2).1 =
      .ok (textResult ("File content of " ++ p ++ ":\n" ++ c)) := by
  have hfs2 : fs2 = fs.set p (.file c) := by
    rcases hl : fs.lookup p with _ | e
    · simp [callTool, dispatchSwitch, outerCatch, handleFileOperations, getField,
        fileOpsCatch, fileOpsBody, Fs.writeFile, hl] at h
      exact h.2.symm
    · cases e with
      | file d =>
        simp [callTool, dispatchSwitch, outerCatch, handleFileOperations, getField,
          fileOpsCatch, fileOpsBody, Fs.writeFile, hl] at h
        exact h.2.symm
      | dir names =>
        simp [callTool, dispatchSwitch, outerCatch, handleFileOperations, getField,
          fileOpsCatch, fileOpsBody, Fs.writeFile, hl] at h
  subst hfs2
  simp [callTool, dispatchSwitch, outerCatch, handleFileOperations, getField,
    fileOpsCatch, fileOpsBody, Fs.readFile, Fs.lookup_set]

/-- Witness for C5: writing "hello" to "/tmp/a" on the empty filesystem
and reading it back returns the text ending in "hello". -/
theorem fileOps_write_read_roundtrip_witness :
    (callTool ⟨"file_operations",
        some [("operation", .str "read"), ("path", .str "/tmp/a")]⟩ "T"
      ⟨[("/tmp/a", .file "hello")]⟩).1 =
      .ok (textResult ("File content of " ++ "/tmp/a" ++ ":\n" ++ "hello")) :=
  fileOps_write_read_roundtrip "/tmp/a" "hello" "T" "T" ⟨[]⟩ ⟨[("/tmp/a", .file "hello")]⟩
    (textResult "Successfully wrote to /tmp/a") rfl

/-- C7: `weather_api` invoked with a string city while the
`OPENWEATHER_API_KEY` credential is absent returns a successful
`ToolResult` carrying the setup-instruction text — not a failure of any
error kind — whatever the injected network and clock capabilities do. -/
theorem weatherAPI_missing_key (args : JsonObj) (city : String)
    (fetchW : String → Except String (Bool × WeatherData)) (localeTime : Rat → String)
    (h : getField args "city" = some (.str city)) :
    handleWeatherAPI args none fetchW localeTime = .ok (textResult weatherSetupText) := by
  simp [handleWeatherAPI, h]

/-- Witness for C7 at city "London" with an unreachable network. -/
theorem weatherAPI_missing_key_witness :
    handleWeatherAPI [("city", .str "London")] none (fun _ => .error "network unreachable")
      (fun _ => "00:00:00") = .ok (textResult weatherSetupText) :=
  weatherAPI_missing_key [("city", .str "London")] "London"
    (fun _ => .error "network unreachable") (fun _ => "00:00:00") rfl

/-- An outer-catch result that is a success came from a successful
dispatch. -/
theorem outerCatch_ok (x : Except Fault ToolResult × Fs) (r : ToolResult) (fs2 : Fs)
    (h : outerCatch x = (.ok r, fs2)) : x = (.ok r, fs2) := by
  obtain ⟨e, fs3⟩ := x
  rcases e with f | v
  · rcases f with e2 | m <;> simp [outerCatch] at h
  · simpa [outerCatch] using h

/-- A file-operations catch result that is a success came from a
successful body. -/
theorem fileOpsCatch_ok (x : Except Fault ToolResult × Fs) (r : ToolResult) (fs2 : Fs)
    (h : fileOpsCatch x = (.ok r, fs2)) : x = (.ok r, fs2) := by
  obtain ⟨e, fs3⟩ := x
  rcases e with f | v
  · rcases f with e2 | m <;> simp [fileOpsCatch] at h
  · simpa [fileOpsCatch] using h

/-- Every successful file-operation body result is one text block. -/
theorem fileOpsBody_ok_single (op p : String) (args : JsonObj) (fs fs2 : Fs)
    (r : ToolResult) (h : fileOpsBody op p args fs = (.ok r, fs2)) :
    ∃ t, r.content = [⟨"text", t⟩] := by
  unfold fileOpsBody at h
  repeat' split at h
  all_goals try simp_all [textResult]
  all_goals (obtain ⟨h1, h2⟩ := h; subst h1; exact ⟨_, rfl⟩)

/-- Every successful `handleFileOperations` result is one text block. -/
theorem handleFileOps_ok_single (args : JsonObj) (fs fs2 : Fs) (r : ToolResult)
    (h : handleFileOperations args fs = (.ok r, fs2)) :
    ∃ t, r.content = [⟨"text", t⟩] := by
  unfold handleFileOperations at h
  split at h
  · exact fileOpsBody_ok_single _ _ args fs fs2 r (fileOpsCatch_ok _ r fs2 h)
  · simp at h

/-- Every successful dispatch-switch result is one text block. -/
theorem dispatch_ok_single (name : String) (args : JsonObj) (now : String) (fs fs2 : Fs)
    (r : ToolResult) (h : dispatchSwitch name args now fs = (.ok r, fs2)) :
    ∃ t, r.content = [⟨"text", t⟩] := by
  unfold dispatchSwitch at h
  split at h
  · repeat' split at h
    all_goals try simp_all [textResult]
    all_goals (obtain ⟨h1, h2⟩ := h; subst h1; exact ⟨_, rfl⟩)
  · repeat' split at h
    all_goals try simp_all [textResult]
    all_goals (obtain ⟨h1, h2⟩ := h; subst h1; exact ⟨_, rfl⟩)
  · repeat' split at h
    all_goals try simp_all [textResult]
    all_goals (obtain ⟨h1, h2⟩ := h; subst h1; exact ⟨_, rfl⟩)
  · simp_all [textResult]
    obtain ⟨h1, h2⟩ := h
    subst h1
    exact ⟨_, rfl⟩
  · exact handleFileOps_ok_single args fs fs2 r h
  · simp at h

/-- C10: every successful `ToolResult` any invocation produces — every
tool, every `file_operations` branch — has exactly one content block,
and its kind is "text": the content sequence is never empty and never
holds more than one block. -/
theorem callTool_single_text_block (req : CallRequest) (now : String) (fs : Fs)
    (r : ToolResult) (fs2 : Fs) (h : callTool req now fs = (.ok r, fs2)) :
    ∃ t, r.content = [⟨"text", t⟩] := by
  obtain ⟨name, args⟩ := req
  cases args with
  | none => simp [callTool] at h
  | some args =>
    exact dispatch_ok_single name args now fs fs2 r (outerCatch_ok _ r fs2 h)

/-- Witness for C10 at a concrete echo invocation. -/
theorem callTool_single_text_block_witness :
    ∃ t, (textResult "Echo: hi").content = [⟨"text", t⟩] :=
  callTool_single_text_block ⟨"echo", some [("text", .str "hi")]⟩ "T" ⟨[]⟩
    (textResult "Echo: hi") ⟨[]⟩ rfl

end MCPServer
